import Mathlib

/-!
Verification of the per-message media conversion pipeline of `src/bot.py`
(TGCircle). The program is a chat bot that converts incoming videos into
square "video note" artifacts via an external ffmpeg process.

Shallow embedding: the effectful collaborators (chat client, filesystem,
subprocess) are modelled by an explicit per-job environment `Env` describing
the outcome of each external call, and `handle_video` is translated into a
pure function from configuration, environment and incoming video to a
`HandleResult` trace recording the observable effects (messages emitted,
temp-path allocation, download/transcode/send invocations, cleanup runs).
Machine-level details (actual byte contents, wall-clock time) are abstracted;
file states are `Option Nat` (missing, or present with a size).
-/

namespace TGCircle

/-- Process-wide configuration, read from the environment at startup
(`src/bot.py` lines 22-25): `VIDEO_MAX_DURATION`, `MAX_FILE_SIZE`,
`FFMPEG_BIN`, `TMP_DIR`. -/
structure Config where
  maxDuration : Nat
  maxFileSize : Nat
  ffmpegBin : String
  tmpDir : String

/-- The incoming video metadata used by `handle_video`: declared duration in
seconds and declared byte size, each optional (Telegram may omit them). -/
structure Video where
  duration : Option Nat
  file_size : Option Nat

/-- Temp input path for a job: `TMP_DIR / f"input_{tmp_id}.mp4"`
(`src/bot.py` line 183). Path division inserts a slash. -/
def input_path (tmpDir tmp_id : String) : String :=
  tmpDir ++ "/input_" ++ tmp_id ++ ".mp4"

/-- Temp output path for a job: `TMP_DIR / f"circle_{tmp_id}.mp4"`
(`src/bot.py` line 184). -/
def output_path (tmpDir tmp_id : String) : String :=
  tmpDir ++ "/circle_" ++ tmp_id ++ ".mp4"

/-- A filesystem fragment: each path is either absent (`none`) or present
with a byte size. -/
def Fs : Type := String → Option Nat

/-- Oracle telling which `unlink` calls raise (filesystem errors such as
permission problems). -/
def UnlinkOracle : Type := String → Bool

/-- `path.unlink()`: removes the path, or raises when the oracle says the
removal fails. -/
def unlink (uf : UnlinkOracle) (fs : Fs) (p : String) : Except String Fs :=
  if uf p then .error "unlink failed"
  else .ok (fun q => if q = p then none else fs q)

/-- One iteration of the cleanup loop in the `finally` block of
`handle_video` (`src/bot.py` lines 272-278): if the path exists, attempt
`unlink`; a raised removal error is caught and logged, never re-raised. -/
def cleanup_one (uf : UnlinkOracle) (fs : Fs) (p : String) : Fs :=
  if (fs p).isSome then
    match unlink uf fs p with
    | .ok fs2 => fs2
    | .error _ => fs
  else fs

/-- The whole `finally` block: cleanup over `(input_path, output_path)`
(`src/bot.py` lines 271-278). Total by construction: every removal failure
is caught inside the loop body, so cleanup itself never raises. -/
def cleanup (uf : UnlinkOracle) (fs : Fs) (inp outp : String) : Fs :=
  cleanup_one uf (cleanup_one uf fs inp) outp

/-- A Python exception flowing through the outer `try` of `handle_video`:
either a `RuntimeError` carrying its message (caught at `src/bot.py` line
257), or any other exception with its type name and message (caught by the
generic handler at line 263). -/
inductive PyExc
  | runtimeError (msg : String)
  | other (name msg : String)
  deriving DecidableEq, Repr

/-- Behaviour of the spawned ffmpeg child process: whether `communicate`
exceeds the timeout, and otherwise its exit code and captured stderr. -/
structure ProcBehavior where
  timesOut : Bool
  returncode : Int
  stderr : String

/-- Outcome of `asyncio.create_subprocess_exec` (`src/bot.py` line 77):
`FileNotFoundError` when the binary is missing, else a spawned process. -/
inductive SpawnResult
  | notFound
  | spawned (p : ProcBehavior)

/-- What `run_ffmpeg` does, observably: the value it returns or the
exception it raises, plus whether `process.kill()` was invoked. -/
structure RunResult where
  outcome : Except PyExc Unit
  killed : Bool

/-- `build_ffmpeg_cmd` (`src/bot.py` lines 45-71): the fixed ffmpeg
argument vector. -/
def build_ffmpeg_cmd (ffmpegBin input_p output_p : String) : List String :=
  [ ffmpegBin,
    "-y",
    "-i",
    input_p,
    "-vf",
    "scale=640:640:force_original_aspect_ratio=increase," ++
    "crop=640:640",
    "-c:v",
    "libx264",
    "-preset",
    "fast",
    "-movflags",
    "+faststart",
    "-c:a",
    "aac",
    "-b:a",
    "128k",
    output_p ]

/-- `run_ffmpeg` (`src/bot.py` lines 74-99). `FileNotFoundError` at spawn is
caught and re-raised as `RuntimeError "ffmpeg not found"`; a timeout on
`communicate` kills the process and raises `RuntimeError "ffmpeg timeout"`;
a non-zero exit code raises `RuntimeError "ffmpeg failed"`; otherwise the
coroutine returns normally. -/
def run_ffmpeg (spawn : SpawnResult) : RunResult :=
  match spawn with
  | .notFound => { outcome := .error (.runtimeError "ffmpeg not found"), killed := false }
  | .spawned p =>
    if p.timesOut then
      { outcome := .error (.runtimeError "ffmpeg timeout"), killed := true }
    else if p.returncode ≠ 0 then
      { outcome := .error (.runtimeError "ffmpeg failed"), killed := false }
    else
      { outcome := .ok (), killed := false }

/-- User-facing messages emitted by `handle_video`, one constructor per
f-string in the source, carrying the interpolated dynamic values. The first
field group of each constructor records the values embedded in the text. -/
inductive UserMessage
  /-- Line 166: video too long, shows actual duration and the maximum. -/
  | tooLong (actual max : Nat)
  /-- Line 173: file too large, shows actual size and the maximum
  (both rendered through `human_size`). -/
  | tooLarge (actual max : Nat)
  /-- Line 179: processing status message (`message.answer`). -/
  | processing
  /-- Line 192: Telegram refused `get_file` (bad request), embeds the error. -/
  | getFileBadRequest (e : String)
  /-- Line 198: network problem while fetching the file reference. -/
  | getFileNetworkError
  /-- Line 208: downloaded input file missing or empty. -/
  | emptyDownload
  /-- Line 219: ffmpeg output file missing or empty. -/
  | emptyOutput
  /-- Line 236: Telegram rejected the video note, embeds the error. -/
  | sendBadRequest (e : String)
  /-- Line 244: Telegram server-side trouble while sending. -/
  | sendServerError
  /-- Line 250: network error while sending. -/
  | sendNetworkError
  /-- Line 255: success confirmation. -/
  | success
  /-- Line 259: generic failure template for any `RuntimeError`, embeds the
  error message and directs the user to the bot developer. -/
  | runtimeError (e : String)
  /-- Line 266: generic notice for any other exception, embeds type name
  and message. -/
  | unexpected (name msg : String)
  deriving DecidableEq, Repr

/-- Outcome of `bot.get_file` (`src/bot.py` line 189): success, the two
specifically-caught Telegram exceptions, or any other exception (which
falls through to the outer handlers). -/
inductive GetFileResult
  | ok
  | badRequest (e : String)
  | networkError (e : String)
  | raised (exc : PyExc)

/-- Outcome of `bot.send_video_note` (`src/bot.py` line 229): success, the
three specifically-caught Telegram exceptions, or any other exception. -/
inductive SendResult
  | ok
  | badRequest (e : String)
  | serverError (e : String)
  | networkError (e : String)
  | raised (exc : PyExc)

/-- Per-job environment: the job identifier drawn from `uuid.uuid4()` and
the outcome of every external call `handle_video` makes, in program order.
`inputFile` is the state of `input_path` after the download; `outputFile`
the state of `output_path` after ffmpeg ran. -/
structure Env where
  tmp_id : String
  getFile : GetFileResult
  download : Except PyExc Unit
  inputFile : Option Nat
  spawn : SpawnResult
  outputFile : Option Nat
  send : SendResult

/-- Observable trace of one `handle_video` execution. `messages` lists the
user-facing texts emitted (the initial answer and every status edit), in
order. `allocated` holds the temp path pair once allocation is reached.
`ffmpegCmd` holds the argument vector when the transcoder was invoked.
`sendCalled` records that `bot.send_video_note` was invoked. `cleanups`
lists each execution of the cleanup loop with its path pair. -/
structure HandleResult where
  messages : List UserMessage
  mkdirCalled : Bool
  allocated : Option (String × String)
  downloadCalled : Bool
  ffmpegCmd : Option (List String)
  sendCalled : Bool
  cleanups : List (String × String)
  deriving DecidableEq, Repr

/-- The duration guard at `src/bot.py` line 165:
`if video.duration and video.duration > VIDEO_MAX_DURATION`. Python
truthiness: `None` and `0` are falsy, so the check is skipped when the
declared duration is absent or zero. -/
def durationRejects (cfg : Config) (v : Video) : Bool :=
  match v.duration with
  | none => false
  | some d => decide (0 < d) && decide (cfg.maxDuration < d)

/-- The size guard at `src/bot.py` line 172:
`if video.file_size and video.file_size > MAX_FILE_SIZE`, with the same
truthiness convention. -/
def sizeRejects (cfg : Config) (v : Video) : Bool :=
  match v.file_size with
  | none => false
  | some s => decide (0 < s) && decide (cfg.maxFileSize < s)

/-- What the try block (`src/bot.py` lines 186-255) produces before the
except handlers and the `finally` run: the status edits it emitted, which
external calls it reached, and the exception it raised, if any. -/
structure TryOutcome where
  edits : List UserMessage
  downloadCalled : Bool
  ffmpegCmd : Option (List String)
  sendCalled : Bool
  raised : Option PyExc

/-- The body of the outer `try` of `handle_video`, in program order:
`get_file` (lines 188-201), `download` (line 204), the empty-input check
(line 206), `run_ffmpeg` (line 215), the empty-output check (line 217),
`send_video_note` (lines 228-253) and the success edit (line 255). Each
specifically-caught Telegram exception produces its status edit and
returns; any other exception propagates as `raised`. -/
def try_body (cfg : Config) (env : Env) (inp outp : String) : TryOutcome :=
  match env.getFile with
  | .badRequest e => ⟨[.getFileBadRequest e], false, none, false, none⟩
  | .networkError _ => ⟨[.getFileNetworkError], false, none, false, none⟩
  | .raised exc => ⟨[], false, none, false, some exc⟩
  | .ok =>
    match env.download with
    | .error exc => ⟨[], true, none, false, some exc⟩
    | .ok _ =>
      match env.inputFile with
      | none => ⟨[.emptyDownload], true, none, false, none⟩
      | some 0 => ⟨[.emptyDownload], true, none, false, none⟩
      | some (_ + 1) =>
        let cmd := build_ffmpeg_cmd cfg.ffmpegBin inp outp
        match (run_ffmpeg env.spawn).outcome with
        | .error exc => ⟨[], true, some cmd, false, some exc⟩
        | .ok _ =>
          match env.outputFile with
          | none => ⟨[.emptyOutput], true, some cmd, false, none⟩
          | some 0 => ⟨[.emptyOutput], true, some cmd, false, none⟩
          | some (_ + 1) =>
            match env.send with
            | .badRequest e => ⟨[.sendBadRequest e], true, some cmd, true, none⟩
            | .serverError _ => ⟨[.sendServerError], true, some cmd, true, none⟩
            | .networkError _ => ⟨[.sendNetworkError], true, some cmd, true, none⟩
            | .raised exc => ⟨[], true, some cmd, true, some exc⟩
            | .ok => ⟨[.success], true, some cmd, true, none⟩

/-- The two except handlers at `src/bot.py` lines 257-270: a `RuntimeError`
is reported through the generic failure template of line 259; any other
exception through the generic notice of line 266. -/
def except_edit : PyExc → UserMessage
  | .runtimeError m => .runtimeError m
  | .other n m => .unexpected n m

/-- `handle_video` (`src/bot.py` lines 154-278) as a trace function. The
two validation guards run first and return before any filesystem work; on
pass, the processing answer is sent, `TMP_DIR.mkdir` runs, the temp path
pair is allocated, and the try/except/finally executes: the except
handlers translate a propagated exception into one last status edit, and
the `finally` block runs the cleanup loop exactly once on the pair. -/
def handle_video (cfg : Config) (env : Env) (v : Video) : HandleResult :=
  if durationRejects cfg v then
    { messages := [.tooLong (v.duration.getD 0) cfg.maxDuration],
      mkdirCalled := false, allocated := none, downloadCalled := false,
      ffmpegCmd := none, sendCalled := false, cleanups := [] }
  else if sizeRejects cfg v then
    { messages := [.tooLarge (v.file_size.getD 0) cfg.maxFileSize],
      mkdirCalled := false, allocated := none, downloadCalled := false,
      ffmpegCmd := none, sendCalled := false, cleanups := [] }
  else
    let inp := input_path cfg.tmpDir env.tmp_id
    let outp := output_path cfg.tmpDir env.tmp_id
    let t := try_body cfg env inp outp
    { messages := .processing ::
        (t.edits ++ (match t.raised with
          | none => []
          | some exc => [except_edit exc])),
      mkdirCalled := true,
      allocated := some (inp, outp),
      downloadCalled := t.downloadCalled,
      ffmpegCmd := t.ffmpegCmd,
      sendCalled := t.sendCalled,
      cleanups := [(inp, outp)] }

/-! ### Sample concrete inputs for witness evaluations -/

/-- The default configuration: `VIDEO_MAX_DURATION=90`,
`MAX_FILE_SIZE=20*1024*1024`, `FFMPEG_BIN="ffmpeg"`, `TMP_DIR="tmp"`. -/
def cfg0 : Config := ⟨90, 20 * 1024 * 1024, "ffmpeg", "tmp"⟩

/-- A valid incoming video: 30 seconds, 5 MiB. -/
def v0 : Video := ⟨some 30, some (5 * 1024 * 1024)⟩

/-- An over-long incoming video: 120 seconds (max is 90). -/
def vLong : Video := ⟨some 120, some 1000⟩

/-- An over-large incoming video: 30 seconds but 50 MiB (max is 20 MiB). -/
def vBig : Video := ⟨some 30, some (50 * 1024 * 1024)⟩

/-- A fully successful environment: download works, the input file has 5
bytes, ffmpeg exits 0, the output file has 7 bytes, sending works. -/
def env0 : Env := ⟨"j1", .ok, .ok (), some 5, .spawned ⟨false, 0, ""⟩, some 7, .ok⟩

/-- Like `env0` but ffmpeg exceeds its timeout. -/
def envTimeout : Env := { env0 with spawn := .spawned ⟨true, 0, ""⟩ }

/-- Like `env0` but the ffmpeg binary is missing. -/
def envNotFound : Env := { env0 with spawn := .notFound }

/-- Like `env0` but ffmpeg exits with code 1. -/
def envExit1 : Env := { env0 with spawn := .spawned ⟨false, 1, "err"⟩ }

/-- Like `env0` but `get_file` is rejected with a bad request. -/
def envBadReq : Env := { env0 with getFile := .badRequest "e1" }

/-- Like `env0` but `get_file` hits a network error. -/
def envNetErr : Env := { env0 with getFile := .networkError "e2" }

/-- Like `env0` but the downloaded input file is empty. -/
def envEmptyIn : Env := { env0 with inputFile := some 0 }

/-- Like `env0` but the ffmpeg output file is missing. -/
def envNoOut : Env := { env0 with outputFile := none }

/-! ### Helper lemmas about cleanup -/

theorem cleanup_one_of_fail (uf : UnlinkOracle) (fs : Fs) (p : String)
    (h : uf p = true) : cleanup_one uf fs p = fs := by
  unfold cleanup_one unlink
  simp [h]

theorem cleanup_one_of_absent (uf : UnlinkOracle) (fs : Fs) (p : String)
    (h : fs p = none) : cleanup_one uf fs p = fs := by
  unfold cleanup_one
  simp [h]

theorem cleanup_one_self (uf : UnlinkOracle) (fs : Fs) (p : String)
    (h : uf p = false) : cleanup_one uf fs p p = none := by
  unfold cleanup_one unlink
  rcases hf : fs p with _ | a
  · simp [hf]
  · simp [hf, h]

theorem cleanup_one_frame (uf : UnlinkOracle) (fs : Fs) (p q : String)
    (h : q ≠ p) : cleanup_one uf fs p q = fs q := by
  unfold cleanup_one unlink
  by_cases hu : uf p <;> rcases hf : fs p with _ | a <;>
    simp [hu, hf, h, ite_apply]

theorem cleanup_frame (uf : UnlinkOracle) (fs : Fs) (i o q : String)
    (hi : q ≠ i) (ho : q ≠ o) : cleanup uf fs i o q = fs q := by
  unfold cleanup
  rw [cleanup_one_frame _ _ _ _ ho, cleanup_one_frame _ _ _ _ hi]

theorem cleanup_idem (uf : UnlinkOracle) (fs : Fs) (i o : String) :
    cleanup uf (cleanup uf fs i o) i o = cleanup uf fs i o := by
  have hgi : cleanup_one uf (cleanup uf fs i o) i = cleanup uf fs i o := by
    cases h : uf i with
    | true => exact cleanup_one_of_fail _ _ _ h
    | false =>
      apply cleanup_one_of_absent
      by_cases hio : i = o
      · subst hio
        exact cleanup_one_self uf (cleanup_one uf fs i) i h
      · have := cleanup_one_frame uf (cleanup_one uf fs i) o i hio
        calc cleanup uf fs i o i = cleanup_one uf fs i i := this
          _ = none := cleanup_one_self uf fs i h
  have hgo : cleanup_one uf (cleanup uf fs i o) o = cleanup uf fs i o := by
    cases h : uf o with
    | true => exact cleanup_one_of_fail _ _ _ h
    | false =>
      apply cleanup_one_of_absent
      exact cleanup_one_self uf (cleanup_one uf fs i) o h
  show cleanup_one uf (cleanup_one uf (cleanup uf fs i o) i) o = cleanup uf fs i o
  rw [hgi, hgo]

theorem cleanup_total_on_fail (fs : Fs) (i o : String) :
    cleanup (fun _ => true) fs i o = fs := by
  unfold cleanup
  rw [cleanup_one_of_fail _ _ _ rfl, cleanup_one_of_fail _ _ _ rfl]

theorem cleanup_removes_both (fs : Fs) (i o : String) :
    cleanup (fun _ => false) fs i o i = none ∧
    cleanup (fun _ => false) fs i o o = none := by
  constructor
  · by_cases hio : i = o
    · subst hio
      exact cleanup_one_self _ (cleanup_one _ fs i) i rfl
    · have h1 : cleanup (fun _ => false) fs i o i =
          cleanup_one (fun _ => false) fs i i :=
        cleanup_one_frame _ _ _ _ hio
      rw [h1]
      exact cleanup_one_self _ fs i rfl
  · exact cleanup_one_self _ (cleanup_one _ fs i) o rfl

/-! ### Helper lemmas about path allocation -/

theorem input_path_inj (tmp a b : String)
    (h : input_path tmp a = input_path tmp b) : a = b := by
  have hd := congrArg String.data h
  simp only [input_path, String.data_append] at hd
  exact String.ext (List.append_cancel_left (List.append_cancel_right hd))

theorem output_path_inj (tmp a b : String)
    (h : output_path tmp a = output_path tmp b) : a = b := by
  have hd := congrArg String.data h
  simp only [output_path, String.data_append] at hd
  exact String.ext (List.append_cancel_left (List.append_cancel_right hd))

theorem input_path_ne_output_path (tmp a b : String) :
    input_path tmp a ≠ output_path tmp b := by
  intro h
  have hd := congrArg String.data h
  simp only [input_path, output_path, String.data_append,
    List.append_assoc] at hd
  have h2 := List.append_cancel_left hd
  have h3 := congrArg (List.take 2) h2
  rw [List.take_append_of_le_length (by decide),
    List.take_append_of_le_length (by decide)] at h3
  exact absurd h3 (by decide)

/-! ### Unfolding lemmas for handle_video -/

theorem handle_video_dur (cfg : Config) (env : Env) (v : Video)
    (h1 : durationRejects cfg v = true) :
    handle_video cfg env v =
      { messages := [.tooLong (v.duration.getD 0) cfg.maxDuration],
        mkdirCalled := false, allocated := none, downloadCalled := false,
        ffmpegCmd := none, sendCalled := false, cleanups := [] } := by
  unfold handle_video
  rw [if_pos h1]

theorem handle_video_size (cfg : Config) (env : Env) (v : Video)
    (h1 : durationRejects cfg v = false) (h2 : sizeRejects cfg v = true) :
    handle_video cfg env v =
      { messages := [.tooLarge (v.file_size.getD 0) cfg.maxFileSize],
        mkdirCalled := false, allocated := none, downloadCalled := false,
        ffmpegCmd := none, sendCalled := false, cleanups := [] } := by
  unfold handle_video
  rw [if_neg (by simp [h1]), if_pos h2]

theorem handle_video_pass (cfg : Config) (env : Env) (v : Video)
    (h1 : durationRejects cfg v = false) (h2 : sizeRejects cfg v = false) :
    handle_video cfg env v =
      { messages := .processing ::
          ((try_body cfg env (input_path cfg.tmpDir env.tmp_id)
              (output_path cfg.tmpDir env.tmp_id)).edits ++
            (match (try_body cfg env (input_path cfg.tmpDir env.tmp_id)
                (output_path cfg.tmpDir env.tmp_id)).raised with
              | none => []
              | some exc => [except_edit exc])),
        mkdirCalled := true,
        allocated := some (input_path cfg.tmpDir env.tmp_id,
          output_path cfg.tmpDir env.tmp_id),
        downloadCalled := (try_body cfg env (input_path cfg.tmpDir env.tmp_id)
          (output_path cfg.tmpDir env.tmp_id)).downloadCalled,
        ffmpegCmd := (try_body cfg env (input_path cfg.tmpDir env.tmp_id)
          (output_path cfg.tmpDir env.tmp_id)).ffmpegCmd,
        sendCalled := (try_body cfg env (input_path cfg.tmpDir env.tmp_id)
          (output_path cfg.tmpDir env.tmp_id)).sendCalled,
        cleanups := [(input_path cfg.tmpDir env.tmp_id,
          output_path cfg.tmpDir env.tmp_id)] } := by
  unfold handle_video
  rw [if_neg (by simp [h1]), if_neg (by simp [h2])]

/-! ### Claims -/

/-- Claim C9: for every pair of input and output paths, the transcoder
argument vector is built deterministically with the fixed shape — input
path, a video filter expression encoding a square 640x640 target with a
scale-and-center-crop fit policy, explicit video codec (libx264) and
encoder preset (fast), the faststart flag for streaming playback, audio
re-encoded to AAC at a fixed 128k bitrate, and the output path, in that
order. -/
theorem c9_ffmpeg_cmd_fixed_shape (bin inp outp : String) :
    build_ffmpeg_cmd bin inp outp =
      [bin, "-y", "-i", inp, "-vf",
       "scale=640:640:force_original_aspect_ratio=increase,crop=640:640",
       "-c:v", "libx264", "-preset", "fast", "-movflags", "+faststart",
       "-c:a", "aac", "-b:a", "128k", outp] := rfl

/-- Claim C10: `run_ffmpeg` has a closed interface — it returns normally
exactly when the spawned process completed within the timeout with exit
code zero, and otherwise raises a `RuntimeError` carrying exactly one of
the three messages; the underlying `FileNotFoundError` and `TimeoutError`
never reach the caller. -/
theorem c10_run_ffmpeg_closed_interface (s : SpawnResult) :
    ((run_ffmpeg s).outcome = .ok () ↔
      ∃ p, s = .spawned p ∧ p.timesOut = false ∧ p.returncode = 0) ∧
    ((run_ffmpeg s).outcome = .ok () ∨
      (run_ffmpeg s).outcome = .error (.runtimeError "ffmpeg not found") ∨
      (run_ffmpeg s).outcome = .error (.runtimeError "ffmpeg timeout") ∨
      (run_ffmpeg s).outcome = .error (.runtimeError "ffmpeg failed")) := by
  cases s with
  | notFound => simp [run_ffmpeg]
  | spawned p =>
    by_cases ht : p.timesOut <;> by_cases hr : p.returncode = 0 <;>
      simp [run_ffmpeg, ht, hr]

/-- Claim C6: when the transcoding process exceeds the wall-clock timeout,
the child is forcibly killed and the outcome is the timeout classification
(`RuntimeError "ffmpeg timeout"`), never success or the non-zero-exit
classification; a job that reached the transcode step then ends with the
timeout status edit and no delivery. -/
theorem c6_timeout_kills_and_classifies (p : ProcBehavior)
    (h : p.timesOut = true) :
    run_ffmpeg (.spawned p) =
      { outcome := .error (.runtimeError "ffmpeg timeout"), killed := true } ∧
    ∀ cfg env v n,
      durationRejects cfg v = false → sizeRejects cfg v = false →
      env.getFile = .ok → env.download = .ok () →
      env.inputFile = some (n + 1) → env.spawn = .spawned p →
      (handle_video cfg env v).messages =
        [.processing, .runtimeError "ffmpeg timeout"] ∧
      (handle_video cfg env v).sendCalled = false := by
  constructor
  · simp [run_ffmpeg, h]
  · intro cfg env v n h1 h2 hg hd hi hs
    have hr : (run_ffmpeg env.spawn).outcome =
        .error (.runtimeError "ffmpeg timeout") := by
      rw [hs]; simp [run_ffmpeg, h]
    rw [handle_video_pass cfg env v h1 h2]
    simp [try_body, hg, hd, hi, hr, except_edit]

/-- Witness for C6: a process behaviour that times out, in the sample
environment, yields the kill plus the timeout status edit. -/
theorem c6_witness :
    run_ffmpeg (.spawned ⟨true, 0, ""⟩) =
      { outcome := .error (.runtimeError "ffmpeg timeout"), killed := true } ∧
    (handle_video cfg0 envTimeout v0).messages =
      [.processing, .runtimeError "ffmpeg timeout"] ∧
    (handle_video cfg0 envTimeout v0).sendCalled = false := by
  have h := c6_timeout_kills_and_classifies ⟨true, 0, ""⟩ rfl
  have h2 := h.2 cfg0 envTimeout v0 4 (by decide) (by decide) rfl rfl rfl rfl
  exact ⟨h.1, h2.1, h2.2⟩

/-- Claim C3: temp path allocation is injective across jobs — for distinct
job identifiers every path of one job differs from both paths of the
other, because the identifier is embedded in every filename; and within
one job the input and output paths always differ. -/
theorem c3_paths_injective (tmp a b : String) (hab : a ≠ b) :
    input_path tmp a ≠ input_path tmp b ∧
    output_path tmp a ≠ output_path tmp b ∧
    input_path tmp a ≠ output_path tmp b ∧
    output_path tmp a ≠ input_path tmp b ∧
    ∀ c : String, input_path tmp c ≠ output_path tmp c :=
  ⟨fun h => hab (input_path_inj _ _ _ h),
   fun h => hab (output_path_inj _ _ _ h),
   input_path_ne_output_path _ _ _,
   fun h => input_path_ne_output_path tmp b a h.symm,
   fun _ => input_path_ne_output_path _ _ _⟩

/-- Witness for C3: two concrete distinct job identifiers give four
pairwise distinct paths. -/
theorem c3_witness :
    input_path "tmp" "a" ≠ input_path "tmp" "b" ∧
    input_path "tmp" "a" ≠ output_path "tmp" "b" ∧
    output_path "tmp" "a" ≠ output_path "tmp" "b" :=
  ⟨(c3_paths_injective "tmp" "a" "b" (by decide)).1,
   (c3_paths_injective "tmp" "a" "b" (by decide)).2.2.1,
   (c3_paths_injective "tmp" "a" "b" (by decide)).2.1⟩

/-- Claim C1: every job that reaches temp-path allocation runs the cleanup
loop exactly once on its path pair, on every exit path of the environment;
cleanup never raises even when every removal fails (it then returns the
filesystem unchanged), repeating it on the same paths changes nothing
(idempotence), it touches no path other than the two supplied, and with
working removals it deletes both paths whether or not each existed. -/
theorem c1_cleanup_exactly_once_total_idempotent :
    (∀ cfg env v i o, (handle_video cfg env v).allocated = some (i, o) →
      (handle_video cfg env v).cleanups = [(i, o)]) ∧
    (∀ uf fs i o, cleanup uf (cleanup uf fs i o) i o = cleanup uf fs i o) ∧
    (∀ uf fs i o q, q ≠ i → q ≠ o → cleanup uf fs i o q = fs q) ∧
    (∀ fs i o, cleanup (fun _ => true) fs i o = fs) ∧
    (∀ fs i o, cleanup (fun _ => false) fs i o i = none ∧
      cleanup (fun _ => false) fs i o o = none) := by
  refine ⟨?_, cleanup_idem, cleanup_frame, cleanup_total_on_fail,
    cleanup_removes_both⟩
  intro cfg env v i o h
  by_cases h1 : durationRejects cfg v
  · rw [handle_video_dur cfg env v h1] at h
    exact absurd h (by simp)
  · by_cases h2 : sizeRejects cfg v
    · rw [handle_video_size cfg env v (by simpa using h1) h2] at h
      exact absurd h (by simp)
    · rw [handle_video_pass cfg env v (by simpa using h1) (by simpa using h2)]
        at h ⊢
      simp only [Option.some.injEq, Prod.mk.injEq] at h
      simp [h.1, h.2]

/-- Witness for C1: in the all-success sample job the allocated pair is
cleaned up exactly once. -/
theorem c1_witness :
    (handle_video cfg0 env0 v0).cleanups =
      [(input_path "tmp" "j1", output_path "tmp" "j1")] :=
  c1_cleanup_exactly_once_total_idempotent.1 cfg0 env0 v0 _ _ (by decide)

/-- Claim C2: the output artifact is delivered (`send_video_note` called)
only in executions where the output path exists with non-zero size; a zero
ffmpeg exit code alone never leads to delivery without this check. -/
theorem c2_send_requires_nonempty_output (cfg : Config) (env : Env)
    (v : Video) (h : (handle_video cfg env v).sendCalled = true) :
    ∃ n, env.outputFile = some (n + 1) := by
  by_cases h1 : durationRejects cfg v
  · rw [handle_video_dur cfg env v h1] at h
    exact absurd h (by simp)
  · by_cases h2 : sizeRejects cfg v
    · rw [handle_video_size cfg env v (by simpa using h1) h2] at h
      exact absurd h (by simp)
    · rw [handle_video_pass cfg env v (by simpa using h1) (by simpa using h2)]
        at h
      simp only [] at h
      rcases hg : env.getFile with _ | e | e | exc <;>
        simp [try_body, hg] at h
      rcases hd : env.download with exc | u <;> simp [hd] at h
      rcases hi : env.inputFile with _ | k <;> simp [hi] at h
      rcases k with _ | n <;> simp at h
      rcases hr : (run_ffmpeg env.spawn).outcome with exc | u2 <;>
        simp [hr] at h
      rcases ho : env.outputFile with _ | m <;> simp [ho] at h
      rcases m with _ | n2 <;> simp at h
      exact ⟨n2, rfl⟩

/-- Witness for C2: the all-success sample job calls `send_video_note`,
and indeed its output file is non-empty. -/
theorem c2_witness : ∃ n, env0.outputFile = some (n + 1) :=
  c2_send_requires_nonempty_output cfg0 env0 v0 (by decide)

/-- Claim C4: a video whose declared duration strictly exceeds the
configured maximum terminates at validation with zero filesystem
allocation — no temp directory creation, no path allocation, no download,
no transcode, no delivery, and no cleanup needed — and the single reply is
the rejection message carrying the actual duration and the maximum. -/
theorem c4_too_long_rejected_before_allocation (cfg : Config) (env : Env)
    (v : Video) (d : Nat) (hd : v.duration = some d)
    (h : cfg.maxDuration < d) :
    handle_video cfg env v =
      { messages := [.tooLong d cfg.maxDuration],
        mkdirCalled := false, allocated := none, downloadCalled := false,
        ffmpegCmd := none, sendCalled := false, cleanups := [] } := by
  have h0 : 0 < d := Nat.lt_of_le_of_lt (Nat.zero_le _) h
  have h1 : durationRejects cfg v = true := by
    simp [durationRejects, hd, h, h0]
  rw [handle_video_dur cfg env v h1]
  simp [hd]

/-- Witness for C4: the 120-second sample video against the 90-second
maximum is rejected with no allocation. -/
theorem c4_witness :
    handle_video cfg0 env0 vLong =
      { messages := [.tooLong 120 90],
        mkdirCalled := false, allocated := none, downloadCalled := false,
        ffmpegCmd := none, sendCalled := false, cleanups := [] } :=
  c4_too_long_rejected_before_allocation cfg0 env0 vLong 120 rfl (by decide)

/-- Claim C5: validation checks run in order — duration first, then byte
size — each failure replying with the actual and maximum values; a check
is skipped when its declared value is absent (fail open); and when both
pass, the job proceeds (paths are allocated and the only message emitted
so far is the processing answer, validation itself having no effect). -/
theorem c5_validation_order_and_fail_open (cfg : Config) (env : Env)
    (v : Video) :
    (∀ d, v.duration = some d → cfg.maxDuration < d →
      (handle_video cfg env v).messages = [.tooLong d cfg.maxDuration]) ∧
    (durationRejects cfg v = false →
      ∀ s, v.file_size = some s → cfg.maxFileSize < s →
      (handle_video cfg env v).messages = [.tooLarge s cfg.maxFileSize]) ∧
    (v.duration = none → durationRejects cfg v = false) ∧
    (v.file_size = none → sizeRejects cfg v = false) ∧
    (durationRejects cfg v = false → sizeRejects cfg v = false →
      (handle_video cfg env v).allocated =
        some (input_path cfg.tmpDir env.tmp_id,
          output_path cfg.tmpDir env.tmp_id) ∧
      (handle_video cfg env v).messages.head? = some .processing) := by
  refine ⟨?_, ?_, ?_, ?_, ?_⟩
  · intro d hd h
    have h0 : 0 < d := Nat.lt_of_le_of_lt (Nat.zero_le _) h
    have h1 : durationRejects cfg v = true := by
      simp [durationRejects, hd, h, h0]
    rw [handle_video_dur cfg env v h1]
    simp [hd]
  · intro h1 s hs h
    have h0 : 0 < s := Nat.lt_of_le_of_lt (Nat.zero_le _) h
    have h2 : sizeRejects cfg v = true := by
      simp [sizeRejects, hs, h, h0]
    rw [handle_video_size cfg env v h1 h2]
    simp [hs]
  · intro hd
    simp [durationRejects, hd]
  · intro hs
    simp [sizeRejects, hs]
  · intro h1 h2
    rw [handle_video_pass cfg env v h1 h2]
    exact ⟨rfl, rfl⟩

/-- Witness for C5: the over-long sample is rejected with the duration
message, the over-large sample with the size message, and the valid sample
proceeds to allocation. -/
theorem c5_witness :
    (handle_video cfg0 env0 vLong).messages = [.tooLong 120 90] ∧
    (handle_video cfg0 env0 vBig).messages =
      [.tooLarge (50 * 1024 * 1024) (20 * 1024 * 1024)] ∧
    (handle_video cfg0 env0 v0).allocated =
      some (input_path "tmp" "j1", output_path "tmp" "j1") :=
  ⟨(c5_validation_order_and_fail_open cfg0 env0 vLong).1 120 rfl (by decide),
   (c5_validation_order_and_fail_open cfg0 env0 vBig).2.1 (by decide)
     (50 * 1024 * 1024) rfl (by decide),
   ((c5_validation_order_and_fail_open cfg0 env0 v0).2.2.2.2 (by decide)
     (by decide)).1⟩

/-- Claim C7 counterexample: the three ffmpeg failure variants are all
reported through the one generic template of `src/bot.py` line 259
(`UserMessage.runtimeError`, the apology directing the user to the bot
developer), merely embedding the raw error token. The timeout variant does
not produce a try-a-shorter-clip message and the non-zero-exit variant
does not produce an unsupported-input message, contrary to the claim. -/
theorem c7_counterexample :
    (handle_video cfg0 envNotFound v0).messages =
      [.processing, .runtimeError "ffmpeg not found"] ∧
    (handle_video cfg0 envTimeout v0).messages =
      [.processing, .runtimeError "ffmpeg timeout"] ∧
    (handle_video cfg0 envExit1 v0).messages =
      [.processing, .runtimeError "ffmpeg failed"] := by decide

/-- Claim C7 (amended): every transcoder outcome other than success is
reported through the single generic apology template that embeds the
specific error token and directs the user to the operator; the three
resulting messages are pairwise distinct only in that token, and every
such outcome routes the job to cleanup (exactly one cleanup run) and
failure (no delivery). -/
theorem c7_amended_single_template (cfg : Config) (env : Env) (v : Video)
    (e : String) (n : Nat)
    (h1 : durationRejects cfg v = false) (h2 : sizeRejects cfg v = false)
    (hg : env.getFile = .ok) (hd : env.download = .ok ())
    (hi : env.inputFile = some (n + 1))
    (hr : (run_ffmpeg env.spawn).outcome = .error (.runtimeError e)) :
    (handle_video cfg env v).messages = [.processing, .runtimeError e] ∧
    (handle_video cfg env v).sendCalled = false ∧
    (handle_video cfg env v).cleanups =
      [(input_path cfg.tmpDir env.tmp_id,
        output_path cfg.tmpDir env.tmp_id)] ∧
    (UserMessage.runtimeError "ffmpeg not found" ≠
      .runtimeError "ffmpeg timeout" ∧
     UserMessage.runtimeError "ffmpeg not found" ≠
      .runtimeError "ffmpeg failed" ∧
     UserMessage.runtimeError "ffmpeg timeout" ≠
      .runtimeError "ffmpeg failed") := by
  rw [handle_video_pass cfg env v h1 h2]
  refine ⟨?_, ?_, rfl, by decide⟩
  · simp [try_body, hg, hd, hi, hr, except_edit]
  · simp [try_body, hg, hd, hi, hr]

/-- Witness for the amended C7: the missing-binary sample environment
produces the generic template with its token, no delivery, one cleanup. -/
theorem c7_witness :
    (handle_video cfg0 envNotFound v0).messages =
      [.processing, .runtimeError "ffmpeg not found"] ∧
    (handle_video cfg0 envNotFound v0).sendCalled = false :=
  ⟨(c7_amended_single_template cfg0 envNotFound v0 "ffmpeg not found" 4
      (by decide) (by decide) rfl rfl rfl rfl).1,
   (c7_amended_single_template cfg0 envNotFound v0 "ffmpeg not found" 4
      (by decide) (by decide) rfl rfl rfl rfl).2.1⟩

/-- Claim C8: during the fetch step, protocol-level rejection and
transport-level network failure produce distinct user-facing messages and
both route to cleanup and failure; and a download that completes leaving a
missing or empty input file is itself a fetch failure with its own
distinct message, again routed to cleanup and failure, with no transcode
attempted in any of the three cases. -/
theorem c8_fetch_failures_distinct (cfg : Config) (env : Env) (v : Video)
    (h1 : durationRejects cfg v = false) (h2 : sizeRejects cfg v = false) :
    (∀ e, env.getFile = .badRequest e →
      (handle_video cfg env v).messages =
        [.processing, .getFileBadRequest e] ∧
      (handle_video cfg env v).ffmpegCmd = none ∧
      (handle_video cfg env v).sendCalled = false ∧
      (handle_video cfg env v).cleanups =
        [(input_path cfg.tmpDir env.tmp_id,
          output_path cfg.tmpDir env.tmp_id)]) ∧
    (∀ e, env.getFile = .networkError e →
      (handle_video cfg env v).messages =
        [.processing, .getFileNetworkError] ∧
      (handle_video cfg env v).ffmpegCmd = none ∧
      (handle_video cfg env v).sendCalled = false ∧
      (handle_video cfg env v).cleanups =
        [(input_path cfg.tmpDir env.tmp_id,
          output_path cfg.tmpDir env.tmp_id)]) ∧
    (env.getFile = .ok → env.download = .ok () →
      (env.inputFile = none ∨ env.inputFile = some 0) →
      (handle_video cfg env v).messages = [.processing, .emptyDownload] ∧
      (handle_video cfg env v).ffmpegCmd = none ∧
      (handle_video cfg env v).sendCalled = false ∧
      (handle_video cfg env v).cleanups =
        [(input_path cfg.tmpDir env.tmp_id,
          output_path cfg.tmpDir env.tmp_id)]) ∧
    (∀ e, UserMessage.getFileBadRequest e ≠ .getFileNetworkError ∧
      UserMessage.getFileBadRequest e ≠ .emptyDownload ∧
      UserMessage.getFileNetworkError ≠ .emptyDownload) := by
  rw [handle_video_pass cfg env v h1 h2]
  refine ⟨?_, ?_, ?_, ?_⟩
  · intro e hg
    exact ⟨by simp [try_body, hg], by simp [try_body, hg],
      by simp [try_body, hg], rfl⟩
  · intro e hg
    exact ⟨by simp [try_body, hg], by simp [try_body, hg],
      by simp [try_body, hg], rfl⟩
  · intro hg hd hi
    rcases hi with hi | hi
    · exact ⟨by simp [try_body, hg, hd, hi], by simp [try_body, hg, hd, hi],
        by simp [try_body, hg, hd, hi], rfl⟩
    · exact ⟨by simp [try_body, hg, hd, hi], by simp [try_body, hg, hd, hi],
        by simp [try_body, hg, hd, hi], rfl⟩
  · intro e
    refine ⟨by simp, by simp, by simp⟩

/-- Witness for C8: the bad-request, network-error and empty-download
sample environments each produce their distinct fetch-failure message. -/
theorem c8_witness :
    (handle_video cfg0 envBadReq v0).messages =
      [.processing, .getFileBadRequest "e1"] ∧
    (handle_video cfg0 envNetErr v0).messages =
      [.processing, .getFileNetworkError] ∧
    (handle_video cfg0 envEmptyIn v0).messages =
      [.processing, .emptyDownload] :=
  ⟨((c8_fetch_failures_distinct cfg0 envBadReq v0 (by decide)
      (by decide)).1 "e1" rfl).1,
   ((c8_fetch_failures_distinct cfg0 envNetErr v0 (by decide)
      (by decide)).2.1 "e2" rfl).1,
   ((c8_fetch_failures_distinct cfg0 envEmptyIn v0 (by decide)
      (by decide)).2.2.1 rfl rfl (Or.inr rfl)).1⟩

end TGCircle
